import Mathlib

set_option autoImplicit false

/-!
Shallow embedding of the pl-tracker backend (src/unnamed/part_000, the full
server with Guardian integration; part_001 and server.js are earlier
revisions of the same file).  JavaScript numbers used for timestamps and
TTLs are modelled as `Int` (millisecond values from `Date.now()`), JSON
payloads as opaque type parameters, nullable JS values as `Option`, and the
top-level `cache` object as an association list for the fixed-shape entries
plus a separate association list for the `guardianArticles` sub-object
(whose values have a different shape: `{ data, timestamp }` with no ttl).
Thrown JS errors are modelled as `Except.error` carrying the message.
-/

namespace PLTracker

/-- One entry of the top-level `cache` object: `{ data, timestamp, ttl }`.
`data` and `timestamp` are `null` initially, hence `Option`. -/
structure CacheEntry (α : Type) where
  data : Option α
  timestamp : Option Int
  ttl : Int
  deriving Repr, DecidableEq

/-- One entry of `cache.guardianArticles`: stored as `{ data, timestamp }`
(always both present when stored, and no per-entry ttl). -/
structure GuardianEntry (β : Type) where
  data : β
  timestamp : Int
  deriving Repr, DecidableEq

/-- The whole `cache` object: fixed-shape named/dynamic entries plus the
`guardianArticles` sub-object. -/
structure ServerCache (α β : Type) where
  main : List (String × CacheEntry α)
  guardianArticles : List (String × GuardianEntry β)
  deriving Repr, DecidableEq

/-- JS object property lookup on an association list (`cache[key]`). -/
def lookupEntry {γ : Type} : List (String × γ) → String → Option γ
  | [], _ => none
  | (k, v) :: rest, key => if k = key then some v else lookupEntry rest key

/-- JS in-place update of an existing property (`cache[key] = v` for a key
already present); keys other than `key` are untouched. -/
def setEntry {γ : Type} (l : List (String × γ)) (key : String) (v : γ) :
    List (String × γ) :=
  l.map (fun p => if p.1 = key then (key, v) else p)

/-- The `cache` literal at the top of the file: seven pre-registered named
entries with their configured ttls, and an empty `guardianArticles` map. -/
def initialCache {α β : Type} : ServerCache α β :=
  { main :=
      [("standings", { data := none, timestamp := none, ttl := 300000 }),
       ("matches", { data := none, timestamp := none, ttl := 180000 }),
       ("scorers", { data := none, timestamp := none, ttl := 600000 }),
       ("teams", { data := none, timestamp := none, ttl := 3600000 }),
       ("competition", { data := none, timestamp := none, ttl := 86400000 }),
       ("standingsLast", { data := none, timestamp := none, ttl := 3600000 }),
       ("matchesLast", { data := none, timestamp := none, ttl := 3600000 })],
    guardianArticles := [] }

/-- `isCacheValid(cacheKey)`: false when the entry is missing, or its `data`
or `timestamp` is null; otherwise `Date.now() - timestamp < ttl`.  (For the
values this program stores - JSON response objects and `Date.now()`
timestamps - JS truthiness coincides with non-null presence.) -/
def isCacheValid {α β : Type} (c : ServerCache α β) (cacheKey : String)
    (now : Int) : Bool :=
  match lookupEntry c.main cacheKey with
  | none => false
  | some e =>
    match e.data, e.timestamp with
    | some _, some ts => decide (now - ts < e.ttl)
    | _, _ => false

/-- Outcome of one outbound HTTP request: a response with status, status
text and parsed JSON body, or a network-level failure. -/
inductive TransportResult (γ : Type) where
  | success (status : Nat) (statusText : String) (body : γ)
  | networkError (message : String)
  deriving Repr, DecidableEq

/-- `response.ok` of the fetch API: status in the range 200-299. -/
def responseOk (status : Nat) : Bool := decide (200 ≤ status ∧ status < 300)

/-- `fetchFootballData(endpoint)`, given the transport outcome of its one
`fetch` call: throws (models as `Except.error`) on 403, 429, any other
non-ok status, or network error (the catch block rethrows); on success
returns the parsed body verbatim. -/
def fetchFootballData {γ : Type} (resp : TransportResult γ) : Except String γ :=
  match resp with
  | TransportResult.networkError m => Except.error m
  | TransportResult.success status statusText body =>
    if status = 403 then
      Except.error "API key required or rate limit exceeded. Get free key at: https://www.football-data.org/client/register"
    else if status = 429 then
      Except.error "Rate limit exceeded. Wait a minute or add API key."
    else if !responseOk status then
      Except.error ("API returned " ++ toString status ++ ": " ++ statusText)
    else Except.ok body

/-- `getCachedOrFetch(cacheKey, endpoint)`.  Returns the JS return value
(`cache[cacheKey].data` on a hit, the fetched data on a successful miss,
a propagated error on a failed miss), the cache state after the call, and
whether `fetchFootballData` was invoked.  On a successful miss a missing
slot is first created with the default 5-minute ttl, then `data` and
`timestamp` are assigned in place. -/
def getCachedOrFetch {α β : Type} (c : ServerCache α β) (cacheKey endpoint : String)
    (now : Int) (doFetch : String → Except String α) :
    Except String (Option α) × ServerCache α β × Bool :=
  if isCacheValid c cacheKey now then
    (Except.ok ((lookupEntry c.main cacheKey).bind CacheEntry.data), c, false)
  else
    match doFetch endpoint with
    | Except.error e => (Except.error e, c, true)
    | Except.ok data =>
      let c1 : ServerCache α β :=
        match lookupEntry c.main cacheKey with
        | none => { c with main := c.main ++ [(cacheKey, { data := none, timestamp := none, ttl := 300000 })] }
        | some _ => c
      let c2 : ServerCache α β :=
        match lookupEntry c1.main cacheKey with
        | some e => { c1 with main := setEntry c1.main cacheKey { e with data := some data, timestamp := some now } }
        | none => c1
      (Except.ok (some data), c2, true)

/-- `POST /api/cache/clear`: every key of the cache object gets
`data = null; timestamp = null` (ttl untouched), and `guardianArticles` is
replaced by a fresh empty object. -/
def clearCache {α β : Type} (c : ServerCache α β) : ServerCache α β :=
  { main := c.main.map (fun p => (p.1, { p.2 with data := none, timestamp := none })),
    guardianArticles := [] }

/-- Season-year computation in the `GET /api/standings/last` handler:
`currentMonth` is the zero-based month index from `new Date().getMonth()`. -/
def standingsLastSeasonYear (currentYear : Int) (currentMonth : Nat) : Int :=
  if currentMonth < 7 then currentYear - 2 else currentYear - 1

/-- Season-year computation in the `GET /api/matches/last` handler
(textually identical to the standings one). -/
def matchesLastSeasonYear (currentYear : Int) (currentMonth : Nat) : Int :=
  if currentMonth < 7 then currentYear - 2 else currentYear - 1

/-! ## Guardian (news-search) client -/

/-- JS falsiness of the `GUARDIAN_API_KEY` environment value: absent
(`undefined`) or the empty string. -/
def isFalsyKey (k : Option String) : Bool :=
  match k with
  | none => true
  | some s => s = ""

/-- `fetchGuardianData(endpoint, params)`, given the credential and the
transport outcome: returns `null` immediately (without fetching) when the
credential is falsy, `null` on any non-ok status or network error (the
catch block returns null), and the parsed body on success.  The second
component records whether a request was issued. -/
def fetchGuardianData {γ : Type} (apiKey : Option String)
    (resp : TransportResult γ) : Option γ × Bool :=
  if isFalsyKey apiKey then (none, false)
  else
    match resp with
    | TransportResult.networkError _ => (none, true)
    | TransportResult.success status _ body =>
      if !responseOk status then (none, true) else (some body, true)

/-- The parsed Guardian payload as used by `searchGuardianArticles`: only
its `response` property is consulted (`data && data.response`). -/
structure GuardianBody (β : Type) where
  response : Option β
  deriving Repr, DecidableEq

/-- The cache-hit test inside `searchGuardianArticles`: entry present,
timestamp present (always true for stored entries), and within the fixed
30-minute ttl. -/
def guardianCacheHit {α β : Type} (c : ServerCache α β) (cacheKey : String)
    (now : Int) : Bool :=
  match lookupEntry c.guardianArticles cacheKey with
  | some e => decide (now - e.timestamp < 1800000)
  | none => false

/-- `cache.guardianArticles[cacheKey] = { data, timestamp }`: overwrite if
present, otherwise add the property. -/
def storeGuardian {α β : Type} (c : ServerCache α β) (cacheKey : String)
    (d : β) (now : Int) : ServerCache α β :=
  match lookupEntry c.guardianArticles cacheKey with
  | some _ => { c with guardianArticles := setEntry c.guardianArticles cacheKey { data := d, timestamp := now } }
  | none => { c with guardianArticles := c.guardianArticles ++ [(cacheKey, { data := d, timestamp := now })] }

/-- `searchGuardianArticles(query, options)`, with the serialized options
string (`JSON.stringify(options)`) supplied, given the credential and the
transport outcome of the one potential request: on a 30-minute-cache hit
returns the stored `data`; otherwise calls `fetchGuardianData`, and if the
result and its `response` are present stores and returns `data.response`,
else returns `null` leaving the cache untouched. -/
def searchGuardianArticles {α β : Type} (c : ServerCache α β)
    (query optionsStr : String) (now : Int) (apiKey : Option String)
    (resp : TransportResult (GuardianBody β)) : Option β × ServerCache α β :=
  let cacheKey := query ++ "-" ++ optionsStr
  if guardianCacheHit c cacheKey now then
    ((lookupEntry c.guardianArticles cacheKey).map GuardianEntry.data, c)
  else
    match (fetchGuardianData apiKey resp).1 with
    | some body =>
      match body.response with
      | some r => (some r, storeGuardian c cacheKey r now)
      | none => (none, c)
    | none => (none, c)

/-! ## Team-name variations and the match-article search engine -/

/-- The apostrophe character, kept out of string literals. -/
def apostrophe : String := String.singleton (Char.ofNat 39)

/-- The `TEAM_NAME_VARIATIONS` object: short name to ordered variants. -/
def TEAM_NAME_VARIATIONS : List (String × List String) :=
  [("Man City", ["Manchester City", "Man City"]),
   ("Man Utd", ["Manchester United", "Man Utd", "Manchester Utd"]),
   ("Spurs", ["Tottenham", "Spurs", "Tottenham Hotspur"]),
   ("Newcastle", ["Newcastle", "Newcastle United"]),
   ("West Ham", ["West Ham", "West Ham United"]),
   ("Wolves", ["Wolves", "Wolverhampton", "Wolverhampton Wanderers"]),
   ("Brighton", ["Brighton", "Brighton & Hove Albion", "Brighton and Hove Albion"]),
   ("Nott" ++ apostrophe ++ "m Forest", ["Nottingham Forest", "Nott" ++ apostrophe ++ "m Forest", "Forest"]),
   ("Leicester", ["Leicester", "Leicester City"]),
   ("Bournemouth", ["Bournemouth", "AFC Bournemouth"]),
   ("Crystal Palace", ["Crystal Palace", "Palace"]),
   ("Ipswich", ["Ipswich", "Ipswich Town"]),
   ("Everton", ["Everton"]),
   ("Arsenal", ["Arsenal"]),
   ("Liverpool", ["Liverpool"]),
   ("Chelsea", ["Chelsea"]),
   ("Aston Villa", ["Aston Villa", "Villa"]),
   ("Fulham", ["Fulham"]),
   ("Brentford", ["Brentford"]),
   ("Southampton", ["Southampton"])]

/-- `getTeamVariations(teamName)`: the mapped variant list, or the original
name as a singleton. -/
def getTeamVariations (teamName : String) : List String :=
  match lookupEntry TEAM_NAME_VARIATIONS teamName with
  | some vs => vs
  | none => [teamName]

/-- The `searchOptions` object built in the `/api/guardian/match` handler. -/
structure SearchOptions where
  tag : String
  pageSize : Nat
  orderBy : String
  deriving Repr, DecidableEq

/-- Tag selection: preview uses live-blog and match-preview tags, anything
else the match-report tag. -/
def matchTag (ty : String) : String :=
  if ty = "preview" then "tone/minutebyminute,football/series/match-previews"
  else "tone/matchreports"

/-- The fixed options passed to every strategy of the match search. -/
def matchSearchOptions (ty : String) : SearchOptions :=
  { tag := matchTag ty, pageSize := 5, orderBy := "newest" }

/-- A Guardian search response as consulted by the handler: `results` and
`total`; articles themselves are opaque (type parameter). -/
structure SearchResp (γ : Type) where
  results : List γ
  total : Nat
  deriving Repr, DecidableEq

/-- The handler's success test `articles && articles.results &&
articles.results.length > 0`, extracting the fields it then uses. -/
def successResults {γ : Type} (articles : Option (SearchResp γ)) :
    Option (List γ × Nat) :=
  match articles with
  | some r => if 0 < r.results.length then some (r.results, r.total) else none
  | none => none

/-- The response body of `/api/guardian/match` (the `success : true` field
is constant and omitted). -/
structure MatchSearchResult (γ : Type) where
  articles : List γ
  total : Nat
  searchStrategy : String
  deriving Repr, DecidableEq

/-- Exact-phrase AND query: `"a" AND "b"`. -/
def quotedAnd (a b : String) : String :=
  "\"" ++ a ++ "\" AND \"" ++ b ++ "\""

/-- JS `x || fallback` on strings (empty string is falsy; an out-of-range
index read is modelled as getting `""`). -/
def jsOr (x fallback : String) : String :=
  if x = "" then fallback else x

/-- The body of the strategy-4 loop (`for (let i = 1; i < max; i++)`),
as fuel-counted structural recursion: `fuel` is the number of loop
iterations left (`max - i` at every call), so the loop runs for the
indices `i, i+1, ...` while `i < max` and falls off to the
empty/`"none"` response when the fuel runs out.  The trace accumulates
the queries issued (in order) via `searchGuardianArticles`. -/
def matchStep4go {γ : Type} (search : String → SearchOptions → Option (SearchResp γ))
    (opts : SearchOptions) (hv av : List String) :
    Nat → Nat → List String → MatchSearchResult γ × List String
  | 0, _, trace => ({ articles := [], total := 0, searchStrategy := "none" }, trace)
  | fuel + 1, i, trace =>
    let homeAlt := jsOr (hv.getD i "") (hv.headD "")
    let awayAlt := jsOr (av.getD i "") (av.headD "")
    let q := quotedAnd homeAlt awayAlt
    match successResults (search q opts) with
    | some (rs, tot) =>
      ({ articles := rs, total := tot, searchStrategy := "variation-" ++ toString i }, trace ++ [q])
    | none => matchStep4go search opts hv av fuel (i + 1) (trace ++ [q])

/-- Strategy 4 loop of the match handler, entered at index `i`: runs the
remaining `max(hv.length, av.length) - i` iterations. -/
def matchStep4 {γ : Type} (search : String → SearchOptions → Option (SearchResp γ))
    (opts : SearchOptions) (hv av : List String) (trace : List String) (i : Nat) :
    MatchSearchResult γ × List String :=
  matchStep4go search opts hv av (Nat.max hv.length av.length - i) i trace

/-- Strategy 3 (unquoted search on the preferred variants) and the
fall-through into strategy 4. -/
def matchStep3 {γ : Type} (search : String → SearchOptions → Option (SearchResp γ))
    (opts : SearchOptions) (hv av : List String) (trace : List String) :
    MatchSearchResult γ × List String :=
  let q := hv.headD "" ++ " " ++ av.headD ""
  match successResults (search q opts) with
  | some (rs, tot) =>
    ({ articles := rs, total := tot, searchStrategy := "unquoted" }, trace ++ [q])
  | none => matchStep4 search opts hv av (trace ++ [q]) 1

/-- The strategy chain of the `GET /api/guardian/match` handler, given the
search backend (`searchGuardianArticles` specialised to this request) as a
function from query and options to an optional response.  Returns the
response body and the queries issued, in order. -/
def findMatchArticles {γ : Type} (search : String → SearchOptions → Option (SearchResp γ))
    (homeTeam awayTeam ty : String) : MatchSearchResult γ × List String :=
  let searchOptions := matchSearchOptions ty
  let homeVariations := getTeamVariations homeTeam
  let awayVariations := getTeamVariations awayTeam
  let q1 := quotedAnd homeTeam awayTeam
  match successResults (search q1 searchOptions) with
  | some (rs, tot) =>
    ({ articles := rs, total := tot, searchStrategy := "exact" }, [q1])
  | none =>
    if homeVariations.length > 1 ∨ awayVariations.length > 1 then
      let fullHomeName := homeVariations.headD ""
      let fullAwayName := awayVariations.headD ""
      if fullHomeName ≠ homeTeam ∨ fullAwayName ≠ awayTeam then
        let q2 := quotedAnd fullHomeName fullAwayName
        match successResults (search q2 searchOptions) with
        | some (rs, tot) =>
          ({ articles := rs, total := tot, searchStrategy := "full-names" }, [q1, q2])
        | none => matchStep3 search searchOptions homeVariations awayVariations [q1, q2]
      else matchStep3 search searchOptions homeVariations awayVariations [q1]
    else matchStep3 search searchOptions homeVariations awayVariations [q1]

/-- Strategy-4 entry for index `i`, worded after the claim: the `i`-th
variant of each team, falling back to that team's preferred variant when
it has fewer variants. -/
def variationPair (hv av : List String) (i : Nat) : String × String :=
  ("variation-" ++ toString i,
   quotedAnd (hv.getD i (hv.headD "")) (av.getD i (av.headD "")))

/-- The claimed strategy order, as (strategy name, query) pairs: exact;
full-names only when a preferred variant differs from the supplied name;
unquoted; then variation-i for i from 1 to the longest variant list's
length minus one. -/
def specStrategies (homeTeam awayTeam : String) : List (String × String) :=
  let hv := getTeamVariations homeTeam
  let av := getTeamVariations awayTeam
  [("exact", quotedAnd homeTeam awayTeam)]
    ++ (if hv.headD "" ≠ homeTeam ∨ av.headD "" ≠ awayTeam
        then [("full-names", quotedAnd (hv.headD "") (av.headD ""))] else [])
    ++ [("unquoted", hv.headD "" ++ " " ++ av.headD "")]
    ++ (List.range' 1 (Nat.max hv.length av.length - 1)).map (variationPair hv av)

/-- First-success semantics over an ordered strategy list: stop at the
first strategy with at least one article, returning its articles, total
and name; if all yield none, return the empty result with strategy
`"none"`.  The trace accumulates every query attempted. -/
def runSpec {γ : Type} (search : String → SearchOptions → Option (SearchResp γ))
    (opts : SearchOptions) :
    List (String × String) → List String → MatchSearchResult γ × List String
  | [], trace => ({ articles := [], total := 0, searchStrategy := "none" }, trace)
  | (name, q) :: rest, trace =>
    match successResults (search q opts) with
    | some (rs, tot) => ({ articles := rs, total := tot, searchStrategy := name }, trace ++ [q])
    | none => runSpec search opts rest (trace ++ [q])

/-! ## Head-to-head -/

/-- `data.aggregates?.homeTeam` / `awayTeam`: name and win count, each
possibly absent. -/
structure H2HTeamAgg where
  name : Option String
  wins : Option Nat
  deriving Repr, DecidableEq

/-- `data.aggregates`. -/
structure H2HAggregates where
  homeTeam : Option H2HTeamAgg
  awayTeam : Option H2HTeamAgg
  draws : Option Nat
  numberOfMatches : Option Nat
  deriving Repr, DecidableEq

/-- A team reference inside an upstream match record: `name` plus an
optional `shortName`. -/
structure H2HTeamRef where
  name : String
  shortName : Option String
  deriving Repr, DecidableEq

/-- `m.score.fullTime`: scores may be null. -/
structure H2HFullTime where
  home : Option Int
  away : Option Int
  deriving Repr, DecidableEq

/-- `m.score`. -/
structure H2HScore where
  fullTime : H2HFullTime
  winner : Option String
  deriving Repr, DecidableEq

/-- One upstream head-to-head match record (the fields the handler reads). -/
structure H2HMatch where
  utcDate : String
  homeTeam : H2HTeamRef
  awayTeam : H2HTeamRef
  score : H2HScore
  deriving Repr, DecidableEq

/-- The upstream head-to-head payload: the handler tests `data.matches`
for presence (a present-but-empty array is still truthy in JS, hence
`some []` takes the stats branch). -/
structure H2HPayload where
  «matches» : Option (List H2HMatch)
  aggregates : Option H2HAggregates
  deriving Repr, DecidableEq

/-- One element of `stats.recentMatches`. -/
structure RecentMatch where
  date : String
  homeTeam : String
  awayTeam : String
  homeScore : Option Int
  awayScore : Option Int
  winner : Option String
  deriving Repr, DecidableEq

/-- `m.homeTeam.shortName || m.homeTeam.name` (empty string is falsy). -/
def pickTeamName (t : H2HTeamRef) : String :=
  match t.shortName with
  | some s => if s = "" then t.name else s
  | none => t.name

/-- The per-match mapping applied to `data.matches.slice(0, 5)`. -/
def toRecentMatch (m : H2HMatch) : RecentMatch :=
  { date := m.utcDate,
    homeTeam := pickTeamName m.homeTeam,
    awayTeam := pickTeamName m.awayTeam,
    homeScore := m.score.fullTime.home,
    awayScore := m.score.fullTime.away,
    winner := m.score.winner }

/-- One side of the derived stats object. -/
structure SideStats where
  name : Option String
  wins : Nat
  draws : Nat
  losses : Nat
  deriving Repr, DecidableEq

/-- The derived `stats` object. -/
structure H2HStats where
  homeTeam : SideStats
  awayTeam : SideStats
  totalMatches : Nat
  recentMatches : List RecentMatch
  deriving Repr, DecidableEq

/-- The stats derivation of the `GET /api/head2head/:matchId` handler,
applied when `data.matches` is present (`ms`): wins from the aggregates
with `|| 0` defaults, draws shared, each side's losses the other side's
wins, total from `numberOfMatches`, and the first five matches mapped. -/
def deriveH2HStats (p : H2HPayload) (ms : List H2HMatch) : H2HStats :=
  let homeWins := ((p.aggregates.bind H2HAggregates.homeTeam).bind H2HTeamAgg.wins).getD 0
  let awayWins := ((p.aggregates.bind H2HAggregates.awayTeam).bind H2HTeamAgg.wins).getD 0
  let draws := (p.aggregates.bind H2HAggregates.draws).getD 0
  { homeTeam :=
      { name := (p.aggregates.bind H2HAggregates.homeTeam).bind H2HTeamAgg.name,
        wins := homeWins, draws := draws, losses := awayWins },
    awayTeam :=
      { name := (p.aggregates.bind H2HAggregates.awayTeam).bind H2HTeamAgg.name,
        wins := awayWins, draws := draws, losses := homeWins },
    totalMatches := (p.aggregates.bind H2HAggregates.numberOfMatches).getD 0,
    recentMatches := (ms.take 5).map toRecentMatch }

/-- The JSON body of the head-to-head response (always sent with
HTTP 200 via `res.json`; `success` is part of the body). -/
structure H2HResponseBody where
  success : Bool
  stats : Option H2HStats
  allMatches : Option (List H2HMatch)
  message : Option String
  deriving Repr, DecidableEq

/-- The response produced once the payload is obtained: stats when
`data && data.matches` is present, otherwise the null-stats message
response - still a success, not a failure. -/
def head2headRespond (p : Option H2HPayload) : H2HResponseBody :=
  match p with
  | some payload =>
    match payload.«matches» with
    | some ms =>
      { success := true,
        stats := some (deriveH2HStats payload ms),
        allMatches := some ms,
        message := none }
    | none =>
      { success := true, stats := none, allMatches := none,
        message := some "No previous meetings found between these teams" }
  | none =>
    { success := true, stats := none, allMatches := none,
      message := some "No previous meetings found between these teams" }

/-- `req.query.limit || 10` serialized into the endpoint string. -/
def head2headLimit (limitParam : Option String) : String :=
  match limitParam with
  | none => "10"
  | some s => if s = "" then "10" else s

/-- The dynamic cache key of the head-to-head handler - built from the
match id alone. -/
def head2headCacheKey (matchId : String) : String :=
  "head2head-" ++ matchId

/-- The upstream endpooint of the head-to-head handler - includes the limit. -/
def head2headEndpoint (matchId limit : String) : String :=
  "/matches/" ++ matchId ++ "/head2head?limit=" ++ limit

/-- The caching step of the head-to-head handler: `getCachedOrFetch` on the
per-match key and the limit-qualified endpoint. -/
def head2headGet {α β : Type} (c : ServerCache α β) (matchId : String)
    (limitParam : Option String) (now : Int) (doFetch : String → Except String α) :
    Except String (Option α) × ServerCache α β × Bool :=
  getCachedOrFetch c (head2headCacheKey matchId)
    (head2headEndpoint matchId (head2headLimit limitParam)) now doFetch

/-! ## Concrete instances used to exercise the theorems -/

/-- A concrete cache with a populated, in-window `standings` entry. -/
def hitCacheExample : ServerCache Nat Nat :=
  { main := [("standings", { data := some 7, timestamp := some 100, ttl := 300000 })],
    guardianArticles := [] }

/-- A concrete head-to-head payload carrying the aggregates of the spec's
worked example (home wins 3, away wins 2, draws 1, six meetings). -/
def h2hPayloadExample : H2HPayload :=
  { «matches» := some [],
    aggregates := some
      { homeTeam := some { name := some "Arsenal", wins := some 3 },
        awayTeam := some { name := some "Chelsea", wins := some 2 },
        draws := some 1,
        numberOfMatches := some 6 } }

/-- A concrete payload with no matches list. -/
def h2hEmptyPayloadExample : H2HPayload :=
  { «matches» := none, aggregates := none }

/-! ## Association-list lemmas -/

theorem lookupEntry_append_of_none {γ : Type} (l l' : List (String × γ))
    (k : String) (h : lookupEntry l k = none) :
    lookupEntry (l ++ l') k = lookupEntry l' k := by
  induction l with
  | nil => rfl
  | cons p t ih =>
    obtain ⟨a, b⟩ := p
    by_cases hak : a = k
    · simp [lookupEntry, hak] at h
    · simp only [lookupEntry, hak, if_false, List.cons_append] at h ⊢
      exact ih h

theorem lookupEntry_setEntry_some {γ : Type} (l : List (String × γ))
    (k : String) (v w : γ) (h : lookupEntry l k = some w) :
    lookupEntry (setEntry l k v) k = some v := by
  induction l with
  | nil => simp [lookupEntry] at h
  | cons p t ih =>
    obtain ⟨a, b⟩ := p
    by_cases hak : a = k
    · subst hak
      show lookupEntry (List.map (fun p => if p.1 = a then (a, v) else p) ((a, b) :: t)) a = some v
      rw [List.map_cons, if_pos rfl]
      simp [lookupEntry]
    · simp only [lookupEntry, hak, if_false] at h
      simp only [setEntry, List.map_cons, hak, if_false]
      simpa only [lookupEntry, hak, if_false, setEntry] using ih h

theorem lookupEntry_map_entry {γ δ : Type} (f : γ → δ)
    (l : List (String × γ)) (k : String) :
    lookupEntry (l.map (fun p => (p.1, f p.2))) k = (lookupEntry l k).map f := by
  induction l with
  | nil => rfl
  | cons p t ih =>
    obtain ⟨a, b⟩ := p
    by_cases hak : a = k <;> simp [lookupEntry, hak, ih]

/-! ## Cache-behaviour lemmas shared between claims -/

theorem isCacheValid_false_of_none {α β : Type} (c : ServerCache α β)
    (k : String) (now : Int) (h : lookupEntry c.main k = none) :
    isCacheValid c k now = false := by
  simp [isCacheValid, h]

theorem getCachedOrFetch_hit {α β : Type} (c : ServerCache α β)
    (k ep : String) (now ts ttl : Int) (v : α)
    (doFetch : String → Except String α)
    (h : lookupEntry c.main k = some { data := some v, timestamp := some ts, ttl := ttl })
    (hw : now - ts < ttl) :
    getCachedOrFetch c k ep now doFetch = (Except.ok (some v), c, false) := by
  have hv : isCacheValid c k now = true := by simp [isCacheValid, h, hw]
  simp [getCachedOrFetch, hv, h]

theorem getCachedOrFetch_store_new {α β : Type} (c : ServerCache α β)
    (k ep : String) (now : Int) (v : α) (doFetch : String → Except String α)
    (hnew : lookupEntry c.main k = none) (hok : doFetch ep = Except.ok v) :
    getCachedOrFetch c k ep now doFetch =
      (Except.ok (some v),
       { c with main := setEntry (c.main ++ [(k, { data := none, timestamp := none, ttl := 300000 })])
                  k { data := some v, timestamp := some now, ttl := 300000 } },
       true) := by
  have hinv : isCacheValid c k now = false := isCacheValid_false_of_none c k now hnew
  have happ : lookupEntry (c.main ++ [(k, ({ data := none, timestamp := none, ttl := 300000 } : CacheEntry α))]) k
      = some { data := none, timestamp := none, ttl := 300000 } := by
    rw [lookupEntry_append_of_none _ _ _ hnew]
    simp [lookupEntry]
  simp [getCachedOrFetch, hinv, hok, hnew, happ]

theorem lookupEntry_after_store {α : Type} (main : List (String × CacheEntry α))
    (k : String) (v : α) (now : Int) (hnew : lookupEntry main k = none) :
    lookupEntry (setEntry (main ++ [(k, { data := none, timestamp := none, ttl := 300000 })])
        k { data := some v, timestamp := some now, ttl := 300000 }) k =
      some { data := some v, timestamp := some now, ttl := 300000 } := by
  refine lookupEntry_setEntry_some _ _ _
      ({ data := none, timestamp := none, ttl := 300000 } : CacheEntry α) ?_
  rw [lookupEntry_append_of_none _ _ _ hnew]
  simp [lookupEntry]

/-! ## Claim theorems -/

/-- C2: for every cache key, the entry is valid iff its stored data is
present, its timestamp is present, and now minus the timestamp is strictly
below the entry's ttl; and whenever the entry is valid, `getCachedOrFetch`
returns the stored value, leaves the cache unchanged, and makes no
upstream call. -/
theorem cache_valid_iff_and_hit_short_circuits {α β : Type}
    (c : ServerCache α β) (k : String) (now : Int) (e : CacheEntry α)
    (h : lookupEntry c.main k = some e) :
    (isCacheValid c k now = true ↔
      ∃ d ts, e.data = some d ∧ e.timestamp = some ts ∧ now - ts < e.ttl)
    ∧ (isCacheValid c k now = true →
        ∀ (endpoint : String) (doFetch : String → Except String α),
          getCachedOrFetch c k endpoint now doFetch = (Except.ok e.data, c, false)) := by
  obtain ⟨d, ts, ttl⟩ := e
  constructor
  · cases d <;> cases ts <;> simp [isCacheValid, h]
  · intro hv endpoint doFetch
    simp [getCachedOrFetch, hv, h]

/-- C2 witness: a populated `standings` entry 100 ms old with a 5-minute
ttl is valid at `now = 200`, and the get-or-fetch returns the stored value
with no upstream call even when the fetch function would fail. -/
theorem cache_valid_iff_and_hit_short_circuits_witness :
    isCacheValid hitCacheExample "standings" 200 = true
    ∧ getCachedOrFetch hitCacheExample "standings" "/competitions/PL/standings" 200
        (fun _ => Except.error "down") = (Except.ok (some 7), hitCacheExample, false) := by
  have h := cache_valid_iff_and_hit_short_circuits hitCacheExample "standings" 200
    { data := some 7, timestamp := some 100, ttl := 300000 } rfl
  have hv : isCacheValid hitCacheExample "standings" 200 = true :=
    h.1.mpr ⟨7, 100, rfl, rfl, by norm_num⟩
  exact ⟨hv, h.2 hv "/competitions/PL/standings" (fun _ => Except.error "down")⟩

/-- C3: a cache miss whose upstream fetch fails propagates the failure and
returns the whole cache state - hence the entry for the key, its data,
timestamp and ttl - exactly as it was before the call; in particular no
failure value is stored. -/
theorem fetch_failure_propagates_leaves_cache {α β : Type}
    (c : ServerCache α β) (k endpoint : String) (now : Int)
    (net : String → TransportResult α) (msg : String)
    (hmiss : isCacheValid c k now = false)
    (herr : fetchFootballData (net endpoint) = Except.error msg) :
    getCachedOrFetch c k endpoint now (fun e => fetchFootballData (net e)) =
      (Except.error msg, c, true) := by
  simp [getCachedOrFetch, hmiss, herr]

/-- C3 witness: on the initial cache a network failure of the standings
fetch is propagated and the cache is returned untouched. -/
theorem fetch_failure_propagates_leaves_cache_witness :
    getCachedOrFetch (α := Nat) (β := Nat) initialCache "standings"
        "/competitions/PL/standings" 0
        (fun e => fetchFootballData ((fun _ => TransportResult.networkError "connect ECONNREFUSED") e)) =
      (Except.error "connect ECONNREFUSED", initialCache, true) :=
  fetch_failure_propagates_leaves_cache initialCache "standings"
    "/competitions/PL/standings" 0 (fun _ => TransportResult.networkError "connect ECONNREFUSED")
    "connect ECONNREFUSED" (by rfl) (by rfl)

/-- C4: both last-season handlers use `currentYear - 1` when the zero-based
month index is at least 7 (August) and `currentYear - 2` otherwise; in
particular month index 6 (July 31) gives `currentYear - 2` and month
index 7 (August 1) gives `currentYear - 1`. -/
theorem lastSeasonYear_august_boundary (currentYear : Int) (currentMonth : Nat) :
    standingsLastSeasonYear currentYear currentMonth =
        (if 7 ≤ currentMonth then currentYear - 1 else currentYear - 2)
    ∧ matchesLastSeasonYear currentYear currentMonth =
        (if 7 ≤ currentMonth then currentYear - 1 else currentYear - 2)
    ∧ standingsLastSeasonYear currentYear 6 = currentYear - 2
    ∧ standingsLastSeasonYear currentYear 7 = currentYear - 1
    ∧ matchesLastSeasonYear currentYear 6 = currentYear - 2
    ∧ matchesLastSeasonYear currentYear 7 = currentYear - 1 := by
  have h : (if currentMonth < 7 then currentYear - 2 else currentYear - 1) =
      (if 7 ≤ currentMonth then currentYear - 1 else currentYear - 2) := by
    by_cases hm : currentMonth < 7
    · rw [if_pos hm, if_neg (by omega)]
    · rw [if_neg hm, if_pos (by omega)]
  exact ⟨h, h, rfl, rfl, rfl, rfl⟩

/-- C5 counterexample: dynamically-created entries are NOT removed
wholesale by the cache clear.  After a head-to-head fetch creates the
dynamic key `head2head-12345`, clearing leaves that key present (reset to
an invalid entry that keeps its 5-minute ttl) instead of deleting it. -/
theorem cacheClear_keeps_dynamic_entry :
    lookupEntry (clearCache (getCachedOrFetch (α := Nat) (β := Nat) initialCache
        "head2head-12345" "/matches/12345/head2head?limit=10" 1000
        (fun _ => Except.ok 1)).2.1).main "head2head-12345" =
      some { data := none, timestamp := none, ttl := 300000 } := by
  decide

/-- C5 amended: after the cache clear every key is invalid before any new
fetch; every entry that existed - pre-registered or dynamically created -
is kept with its configured ttl unchanged and its data and timestamp
reset to null; and only the dynamically-created news-search
(`guardianArticles`) entries are removed wholesale. -/
theorem cacheClear_invalidates_everything {α β : Type} (c : ServerCache α β)
    (k : String) (now : Int) :
    isCacheValid (clearCache c) k now = false
    ∧ (∀ e, lookupEntry c.main k = some e →
        lookupEntry (clearCache c).main k =
          some { data := none, timestamp := none, ttl := e.ttl })
    ∧ (clearCache c).guardianArticles = [] := by
  refine ⟨?_, ?_, rfl⟩
  · have hm := lookupEntry_map_entry
      (fun e : CacheEntry α => ({ e with data := none, timestamp := none } : CacheEntry α)) c.main k
    unfold isCacheValid clearCache
    rw [hm]
    cases lookupEntry c.main k <;> simp
  · intro e he
    have hm := lookupEntry_map_entry
      (fun e : CacheEntry α => ({ e with data := none, timestamp := none } : CacheEntry α)) c.main k
    unfold clearCache
    rw [hm, he]
    rfl

/-- C5 amended witness: clearing the example populated cache invalidates
its `standings` entry while keeping the entry itself with ttl 300000. -/
theorem cacheClear_invalidates_everything_witness :
    isCacheValid (clearCache hitCacheExample) "standings" 200 = false
    ∧ lookupEntry (clearCache hitCacheExample).main "standings" =
        some { data := none, timestamp := none, ttl := 300000 }
    ∧ (clearCache hitCacheExample).guardianArticles = [] := by
  have h := cacheClear_invalidates_everything hitCacheExample "standings" 200
  exact ⟨h.1, h.2.1 { data := some 7, timestamp := some 100, ttl := 300000 } rfl, h.2.2⟩

/-- C9: a miss on a key that is not pre-registered, followed by a
successful fetch, creates the slot with the default 5-minute (300000 ms)
ttl, stores the value with the current timestamp, returns it, and
subsequent gets within that ttl hit the cache (same value, unchanged
state, no upstream call). -/
theorem dynamicKey_default_ttl_then_hits {α β : Type}
    (c : ServerCache α β) (k endpoint : String) (now : Int) (v : α)
    (doFetch : String → Except String α)
    (hnew : lookupEntry c.main k = none)
    (hok : doFetch endpoint = Except.ok v) :
    (getCachedOrFetch c k endpoint now doFetch).1 = Except.ok (some v)
    ∧ (getCachedOrFetch c k endpoint now doFetch).2.2 = true
    ∧ lookupEntry (getCachedOrFetch c k endpoint now doFetch).2.1.main k =
        some { data := some v, timestamp := some now, ttl := 300000 }
    ∧ ∀ (now2 : Int) (ep2 : String) (f2 : String → Except String α),
        now2 - now < 300000 →
        getCachedOrFetch (getCachedOrFetch c k endpoint now doFetch).2.1 k ep2 now2 f2 =
          (Except.ok (some v), (getCachedOrFetch c k endpoint now doFetch).2.1, false) := by
  rw [getCachedOrFetch_store_new c k endpoint now v doFetch hnew hok]
  refine ⟨rfl, rfl, lookupEntry_after_store c.main k v now hnew, ?_⟩
  intro now2 ep2 f2 hwin
  exact getCachedOrFetch_hit _ k ep2 now2 now 300000 v f2
    (lookupEntry_after_store c.main k v now hnew) hwin

/-- C9 witness: fetching the fresh dynamic key `head2head-42` at time 1000
creates it with ttl 300000, and a second get at time 2000 hits. -/
theorem dynamicKey_default_ttl_then_hits_witness :
    (getCachedOrFetch (α := Nat) (β := Nat) initialCache "head2head-42"
        "/matches/42/head2head?limit=10" 1000 (fun _ => Except.ok 5)).1 = Except.ok (some 5)
    ∧ getCachedOrFetch (getCachedOrFetch (α := Nat) (β := Nat) initialCache "head2head-42"
          "/matches/42/head2head?limit=10" 1000 (fun _ => Except.ok 5)).2.1
        "head2head-42" "/matches/42/head2head?limit=10" 2000 (fun _ => Except.error "down") =
      (Except.ok (some 5),
       (getCachedOrFetch (α := Nat) (β := Nat) initialCache "head2head-42"
          "/matches/42/head2head?limit=10" 1000 (fun _ => Except.ok 5)).2.1, false) := by
  have h := dynamicKey_default_ttl_then_hits (α := Nat) (β := Nat) initialCache
    "head2head-42" "/matches/42/head2head?limit=10" 1000 5 (fun _ => Except.ok 5)
    (by rfl) (by rfl)
  exact ⟨h.1, h.2.2.2 2000 "/matches/42/head2head?limit=10"
    (fun _ => Except.error "down") (by norm_num)⟩

/-- C10: the head-to-head cache key is built from the matchId alone, so a
second request with a different limit arriving within the entry's ttl
returns the payload cached by the first request - whatever limit that
used - with no upstream call and no state change. -/
theorem head2head_cache_ignores_limit {α β : Type}
    (c : ServerCache α β) (matchId : String) (limit1 limit2 : Option String)
    (now now2 : Int) (v : α) (f1 f2 : String → Except String α)
    (hnew : lookupEntry c.main (head2headCacheKey matchId) = none)
    (hok : f1 (head2headEndpoint matchId (head2headLimit limit1)) = Except.ok v)
    (hwin : now2 - now < 300000) :
    head2headGet (head2headGet c matchId limit1 now f1).2.1 matchId limit2 now2 f2 =
      (Except.ok (some v), (head2headGet c matchId limit1 now f1).2.1, false) := by
  unfold head2headGet
  rw [getCachedOrFetch_store_new c (head2headCacheKey matchId)
    (head2headEndpoint matchId (head2headLimit limit1)) now v f1 hnew hok]
  exact getCachedOrFetch_hit _ _ _ now2 now 300000 v f2
    (lookupEntry_after_store c.main (head2headCacheKey matchId) v now hnew) hwin

/-- C10 witness: a first head-to-head request for match 99 with the
default limit, then a second one with limit 3 a second later: the second
returns the first's cached payload without an upstream call. -/
theorem head2head_cache_ignores_limit_witness :
    head2headGet (head2headGet (α := Nat) (β := Nat) initialCache "99" none 1000
        (fun _ => Except.ok 8)).2.1 "99" (some "3") 2000 (fun _ => Except.error "down") =
      (Except.ok (some 8),
       (head2headGet (α := Nat) (β := Nat) initialCache "99" none 1000
          (fun _ => Except.ok 8)).2.1, false) :=
  head2head_cache_ignores_limit initialCache "99" none (some "3") 1000 2000 8
    (fun _ => Except.ok 8) (fun _ => Except.error "down") (by rfl) (by rfl) (by norm_num)

/-- C6: the news-search client never surfaces an error: with a falsy
credential it returns null immediately and issues no request; with a
credential, any transport error or non-success status also yields null
(the only signals a caller can observe are null versus data); and
`searchGuardianArticles`, on a cache miss with a falsy credential,
likewise returns null and leaves the cache untouched. -/
theorem guardian_degrades_to_null {γ α β : Type}
    (apiKey : Option String) (resp : TransportResult γ)
    (c : ServerCache α β) (query optionsStr : String) (now : Int)
    (resp2 : TransportResult (GuardianBody β)) :
    (isFalsyKey apiKey = true → fetchGuardianData apiKey resp = (none, false))
    ∧ (∀ m, resp = TransportResult.networkError m →
        (fetchGuardianData apiKey resp).1 = none)
    ∧ (∀ status statusText body,
        resp = TransportResult.success status statusText body →
        responseOk status = false → (fetchGuardianData apiKey resp).1 = none)
    ∧ (guardianCacheHit c (query ++ "-" ++ optionsStr) now = false →
        isFalsyKey apiKey = true →
        searchGuardianArticles c query optionsStr now apiKey resp2 = (none, c)) := by
  refine ⟨?_, ?_, ?_, ?_⟩
  · intro hf
    simp [fetchGuardianData, hf]
  · intro m hm
    subst hm
    by_cases hf : isFalsyKey apiKey = true <;> simp [fetchGuardianData, hf]
  · intro status statusText body hm hst
    subst hm
    by_cases hf : isFalsyKey apiKey = true <;> simp [fetchGuardianData, hf, hst]
  · intro hmiss hf
    simp [searchGuardianArticles, hmiss, fetchGuardianData, hf]

/-- C6 witness: with no credential the client returns null without a
request, and the cached search on the empty initial cache returns null
leaving the cache unchanged. -/
theorem guardian_degrades_to_null_witness :
    fetchGuardianData (γ := Nat) none (TransportResult.networkError "getaddrinfo ENOTFOUND") = (none, false)
    ∧ searchGuardianArticles (α := Nat) (β := Nat) initialCache "\"Arsenal\" AND \"Chelsea\"" "\x7b\x7d" 0 none
        (TransportResult.networkError "getaddrinfo ENOTFOUND") = (none, initialCache) := by
  have h := guardian_degrades_to_null (γ := Nat) (α := Nat) (β := Nat) none
    (TransportResult.networkError "getaddrinfo ENOTFOUND") initialCache
    "\"Arsenal\" AND \"Chelsea\"" "\x7b\x7d" 0
    (TransportResult.networkError "getaddrinfo ENOTFOUND")
  exact ⟨h.1 rfl, h.2.2.2 rfl rfl⟩

/-- C7: from a head-to-head payload whose aggregates are present, the
derived stats give each side the other side's wins as losses, the shared
draws count on both sides, `numberOfMatches` as `totalMatches`, and map
the first five upstream matches to date, names (short name preferred when
non-empty), full-time scores and winner. -/
theorem head2head_stats_derivation (p : H2HPayload) (ms : List H2HMatch)
    (agg : H2HAggregates) (homeAgg awayAgg : H2HTeamAgg) (hw aw d n : Nat)
    (hagg : p.aggregates = some agg)
    (hht : agg.homeTeam = some homeAgg) (hat : agg.awayTeam = some awayAgg)
    (hhw : homeAgg.wins = some hw) (haw : awayAgg.wins = some aw)
    (hd : agg.draws = some d) (hn : agg.numberOfMatches = some n) :
    (deriveH2HStats p ms).homeTeam.losses = aw
    ∧ (deriveH2HStats p ms).awayTeam.losses = hw
    ∧ (deriveH2HStats p ms).homeTeam.wins = hw
    ∧ (deriveH2HStats p ms).awayTeam.wins = aw
    ∧ (deriveH2HStats p ms).homeTeam.draws = d
    ∧ (deriveH2HStats p ms).awayTeam.draws = d
    ∧ (deriveH2HStats p ms).totalMatches = n
    ∧ (deriveH2HStats p ms).recentMatches = (ms.take 5).map (fun m =>
        { date := m.utcDate,
          homeTeam := pickTeamName m.homeTeam,
          awayTeam := pickTeamName m.awayTeam,
          homeScore := m.score.fullTime.home,
          awayScore := m.score.fullTime.away,
          winner := m.score.winner }) := by
  refine ⟨?_, ?_, ?_, ?_, ?_, ?_, ?_, rfl⟩ <;>
    simp [deriveH2HStats, hagg, hht, hat, hhw, haw, hd, hn]

/-- C7 witness: the spec's worked example - aggregates with home wins 3,
away wins 2, draws 1, six meetings - yields home losses 2, away losses 3
and draws 1 on both sides. -/
theorem head2head_stats_derivation_witness :
    (deriveH2HStats h2hPayloadExample []).homeTeam.losses = 2
    ∧ (deriveH2HStats h2hPayloadExample []).awayTeam.losses = 3
    ∧ (deriveH2HStats h2hPayloadExample []).homeTeam.draws = 1
    ∧ (deriveH2HStats h2hPayloadExample []).awayTeam.draws = 1
    ∧ (deriveH2HStats h2hPayloadExample []).totalMatches = 6 := by
  have h := head2head_stats_derivation h2hPayloadExample []
    { homeTeam := some { name := some "Arsenal", wins := some 3 },
      awayTeam := some { name := some "Chelsea", wins := some 2 },
      draws := some 1, numberOfMatches := some 6 }
    { name := some "Arsenal", wins := some 3 }
    { name := some "Chelsea", wins := some 2 }
    3 2 1 6 rfl rfl rfl rfl rfl rfl rfl
  exact ⟨h.1, h.2.1, h.2.2.2.2.1, h.2.2.2.2.2.1, h.2.2.2.2.2.2.1⟩

/-- C8: when the upstream payload carries no matches list (no prior
meetings), the head-to-head handler responds with a success body whose
stats field is null and an explanatory message - not a failure and not a
zero-filled stats object; the same body is produced when the payload
itself is absent. -/
theorem head2head_null_stats_on_no_meetings (p : H2HPayload)
    (h : p.«matches» = none) :
    head2headRespond (some p) =
      { success := true, stats := none, allMatches := none,
        message := some "No previous meetings found between these teams" }
    ∧ head2headRespond none =
      { success := true, stats := none, allMatches := none,
        message := some "No previous meetings found between these teams" } := by
  refine ⟨?_, rfl⟩
  simp [head2headRespond, h]

/-- C8 witness: the concrete empty payload produces the null-stats success
body. -/
theorem head2head_null_stats_on_no_meetings_witness :
    head2headRespond (some h2hEmptyPayloadExample) =
      { success := true, stats := none, allMatches := none,
        message := some "No previous meetings found between these teams" } :=
  (head2head_null_stats_on_no_meetings h2hEmptyPayloadExample rfl).1

/-! ## Team-variation and strategy-chain lemmas -/

theorem lookupEntry_mem {γ : Type} (l : List (String × γ)) (k : String) (v : γ)
    (h : lookupEntry l k = some v) : (k, v) ∈ l := by
  induction l with
  | nil => simp [lookupEntry] at h
  | cons p t ih =>
    obtain ⟨a, b⟩ := p
    by_cases hak : a = k
    · subst hak
      simp [lookupEntry] at h
      subst h
      exact List.mem_cons_self _ _
    · simp only [lookupEntry, hak, if_false] at h
      exact List.mem_cons_of_mem _ (ih h)

theorem getTeamVariations_cases (t : String) :
    getTeamVariations t = [t] ∨ (t, getTeamVariations t) ∈ TEAM_NAME_VARIATIONS := by
  unfold getTeamVariations
  cases h : lookupEntry TEAM_NAME_VARIATIONS t with
  | none => left; rfl
  | some vs => right; exact lookupEntry_mem _ _ _ h

theorem getTeamVariations_ne_nil (t : String) : getTeamVariations t ≠ [] := by
  rcases getTeamVariations_cases t with h | h
  · rw [h]; simp
  · simp only [TEAM_NAME_VARIATIONS, List.mem_cons, List.not_mem_nil, or_false,
      Prod.mk.injEq] at h
    rcases h with ⟨h1, h2⟩|⟨h1, h2⟩|⟨h1, h2⟩|⟨h1, h2⟩|⟨h1, h2⟩|⟨h1, h2⟩|⟨h1, h2⟩|⟨h1, h2⟩|⟨h1, h2⟩|⟨h1, h2⟩|⟨h1, h2⟩|⟨h1, h2⟩|⟨h1, h2⟩|⟨h1, h2⟩|⟨h1, h2⟩|⟨h1, h2⟩|⟨h1, h2⟩|⟨h1, h2⟩|⟨h1, h2⟩|⟨h1, h2⟩ <;>
      (rw [h2]; simp)

theorem getTeamVariations_head_ne (t : String)
    (h : (getTeamVariations t).headD "" ≠ t) : 1 < (getTeamVariations t).length := by
  rcases getTeamVariations_cases t with hc | hc
  · rw [hc] at h; simp at h
  · simp only [TEAM_NAME_VARIATIONS, List.mem_cons, List.not_mem_nil, or_false,
      Prod.mk.injEq] at hc
    rcases hc with ⟨rfl, h2⟩|⟨rfl, h2⟩|⟨rfl, h2⟩|⟨rfl, h2⟩|⟨rfl, h2⟩|⟨rfl, h2⟩|⟨rfl, h2⟩|⟨rfl, h2⟩|⟨rfl, h2⟩|⟨rfl, h2⟩|⟨rfl, h2⟩|⟨rfl, h2⟩|⟨rfl, h2⟩|⟨rfl, h2⟩|⟨rfl, h2⟩|⟨rfl, h2⟩|⟨rfl, h2⟩|⟨rfl, h2⟩|⟨rfl, h2⟩|⟨rfl, h2⟩ <;>
      rw [h2] at h ⊢ <;>
      first
        | decide
        | (exact absurd rfl h)

theorem getTeamVariations_no_empty (t : String) :
    (∀ x ∈ getTeamVariations t, x ≠ "") ∨ (getTeamVariations t).length ≤ 1 := by
  rcases getTeamVariations_cases t with hc | hc
  · right; rw [hc]; simp
  · simp only [TEAM_NAME_VARIATIONS, List.mem_cons, List.not_mem_nil, or_false,
      Prod.mk.injEq] at hc
    rcases hc with ⟨h1, h2⟩|⟨h1, h2⟩|⟨h1, h2⟩|⟨h1, h2⟩|⟨h1, h2⟩|⟨h1, h2⟩|⟨h1, h2⟩|⟨h1, h2⟩|⟨h1, h2⟩|⟨h1, h2⟩|⟨h1, h2⟩|⟨h1, h2⟩|⟨h1, h2⟩|⟨h1, h2⟩|⟨h1, h2⟩|⟨h1, h2⟩|⟨h1, h2⟩|⟨h1, h2⟩|⟨h1, h2⟩|⟨h1, h2⟩ <;>
      (left; rw [h2]; decide)

theorem jsOr_getD_eq (l : List String) (i : Nat) (hi : 1 ≤ i)
    (hl : (∀ x ∈ l, x ≠ "") ∨ l.length ≤ 1) :
    jsOr (l.getD i "") (l.headD "") = l.getD i (l.headD "") := by
  by_cases hlen : i < l.length
  · rcases hl with hne | hshort
    · have hmem : l.getD i "" ∈ l := by
        rw [List.getD_eq_getElem l "" hlen]
        exact List.getElem_mem hlen
      rw [jsOr, if_neg (hne _ hmem)]
      rw [List.getD_eq_getElem l "" hlen, List.getD_eq_getElem l _ hlen]
    · omega
  · have h1 : l.getD i "" = "" := by
      rw [List.getD_eq_getElem?_getD, List.getElem?_eq_none (by omega)]; rfl
    have h2 : l.getD i (l.headD "") = l.headD "" := by
      rw [List.getD_eq_getElem?_getD, List.getElem?_eq_none (by omega)]; rfl
    rw [h1, h2, jsOr, if_pos rfl]

theorem matchStep4go_eq_runSpec {γ : Type}
    (search : String → SearchOptions → Option (SearchResp γ)) (opts : SearchOptions)
    (hv av : List String)
    (hhv : (∀ x ∈ hv, x ≠ "") ∨ hv.length ≤ 1)
    (hav : (∀ x ∈ av, x ≠ "") ∨ av.length ≤ 1) :
    ∀ (fuel i : Nat), 1 ≤ i → ∀ trace,
      matchStep4go search opts hv av fuel i trace =
        runSpec search opts ((List.range' i fuel).map (variationPair hv av)) trace := by
  intro fuel
  induction fuel with
  | zero =>
    intro i h1 trace
    rfl
  | succ m ih =>
    intro i h1 trace
    rw [matchStep4go]
    have hq : quotedAnd (jsOr (hv.getD i "") (hv.headD "")) (jsOr (av.getD i "") (av.headD ""))
        = quotedAnd (hv.getD i (hv.headD "")) (av.getD i (av.headD "")) := by
      rw [jsOr_getD_eq hv i h1 hhv, jsOr_getD_eq av i h1 hav]
    rw [List.range'_succ, List.map_cons]
    rw [runSpec]
    simp only [variationPair, hq]
    cases hsr : successResults (search (quotedAnd (hv.getD i (hv.headD "")) (av.getD i (av.headD ""))) opts) with
    | some rt => obtain ⟨rs, tot⟩ := rt; rfl
    | none => exact ih (i + 1) (by omega) _

theorem matchStep3_eq_runSpec {γ : Type}
    (search : String → SearchOptions → Option (SearchResp γ)) (opts : SearchOptions)
    (hv av : List String)
    (hhv : (∀ x ∈ hv, x ≠ "") ∨ hv.length ≤ 1)
    (hav : (∀ x ∈ av, x ≠ "") ∨ av.length ≤ 1) (trace : List String) :
    matchStep3 search opts hv av trace =
      runSpec search opts (("unquoted", hv.headD "" ++ " " ++ av.headD "") ::
        (List.range' 1 (Nat.max hv.length av.length - 1)).map (variationPair hv av)) trace := by
  rw [matchStep3, runSpec]
  cases hsr : successResults (search (hv.headD "" ++ " " ++ av.headD "") opts) with
  | some rt => obtain ⟨rs, tot⟩ := rt; rfl
  | none =>
    exact matchStep4go_eq_runSpec search opts hv av hhv hav
      (Nat.max hv.length av.length - 1) 1 (by omega) _

/-- C1: the match-article search runs exactly the claimed ordered fallback
chain - exact query on the supplied names; exact query on the preferred
variants only when a preferred variant differs from the supplied name;
unquoted query on the preferred variants; then variation-i queries for i
from 1 to the longest variant list's length minus one with per-team
fallback to the preferred variant - stopping at the first strategy whose
result has at least one article and returning its articles, total and
strategy name, with the trace of issued queries covering precisely the
attempted strategies; when every strategy fails it returns the empty list,
total 0 and strategy "none" without failing. -/
theorem findMatchArticles_follows_spec {γ : Type}
    (search : String → SearchOptions → Option (SearchResp γ))
    (homeTeam awayTeam ty : String) :
    findMatchArticles search homeTeam awayTeam ty =
      runSpec search (matchSearchOptions ty) (specStrategies homeTeam awayTeam) [] := by
  have hhv := getTeamVariations_no_empty homeTeam
  have hav := getTeamVariations_no_empty awayTeam
  simp only [findMatchArticles, specStrategies, List.singleton_append, List.cons_append]
  cases h1 : successResults (search (quotedAnd homeTeam awayTeam) (matchSearchOptions ty)) with
  | some rt =>
    obtain ⟨rs, tot⟩ := rt
    rw [runSpec, h1]
    rfl
  | none =>
    rw [runSpec, h1]
    dsimp only
    by_cases h2 : (getTeamVariations homeTeam).headD "" ≠ homeTeam ∨
        (getTeamVariations awayTeam).headD "" ≠ awayTeam
    · have houter : (getTeamVariations homeTeam).length > 1 ∨
          (getTeamVariations awayTeam).length > 1 := by
        rcases h2 with h | h
        · exact Or.inl (getTeamVariations_head_ne homeTeam h)
        · exact Or.inr (getTeamVariations_head_ne awayTeam h)
      rw [if_pos houter, if_pos h2, if_pos h2]
      simp only [List.cons_append, List.nil_append]
      rw [runSpec]
      cases h2r : successResults (search (quotedAnd ((getTeamVariations homeTeam).headD "")
          ((getTeamVariations awayTeam).headD "")) (matchSearchOptions ty)) with
      | some rt => obtain ⟨rs, tot⟩ := rt; rfl
      | none =>
        exact matchStep3_eq_runSpec search (matchSearchOptions ty) _ _ hhv hav _
    · rw [if_neg h2, ite_self, if_neg h2]
      simp only [List.nil_append]
      exact matchStep3_eq_runSpec search (matchSearchOptions ty) _ _ hhv hav _

/-! ## Concrete evaluations of the embedding (sanity checks) -/

example : getTeamVariations "Man City" = ["Manchester City", "Man City"] := by decide

example : getTeamVariations "Burnley" = ["Burnley"] := by decide

/- The spec's strategy-order test vector: a provider with zero results for
the exact and full-names queries but a nonempty result for the unquoted
one makes the search return strategy "unquoted", attempting no
variation-i query. -/
example :
    findMatchArticles (γ := Nat)
      (fun q _ => if q = "Manchester City Tottenham" then
        some { results := [1], total := 1 } else none)
      "Man City" "Spurs" "report" =
    ({ articles := [1], total := 1, searchStrategy := "unquoted" },
     ["\"Man City\" AND \"Spurs\"", "\"Manchester City\" AND \"Tottenham\"",
      "Manchester City Tottenham"]) := by decide

/- A provider with no results at all: the search degrades to the empty
"none" result after issuing every strategy's query (two variation rounds,
since the longest variant list has three entries). -/
example :
    findMatchArticles (γ := Nat) (fun _ _ => none) "Man City" "Spurs" "preview" =
    ({ articles := [], total := 0, searchStrategy := "none" },
     ["\"Man City\" AND \"Spurs\"", "\"Manchester City\" AND \"Tottenham\"",
      "Manchester City Tottenham", "\"Man City\" AND \"Spurs\"",
      "\"Manchester City\" AND \"Tottenham Hotspur\""]) := by decide

/- Teams whose preferred variant equals the supplied name skip the
full-names strategy. -/
example :
    findMatchArticles (γ := Nat) (fun _ _ => none) "Arsenal" "Everton" "report" =
    ({ articles := [], total := 0, searchStrategy := "none" },
     ["\"Arsenal\" AND \"Everton\"", "Arsenal Everton"]) := by decide

end PLTracker
